import Mathlib

/-!
Verification of the interaction core of the vision-pinch demo.

The source is src/App.tsx together with src/types.ts.  We shallowly embed
the React state of the App component as a record, and each state-mutating
operation of the component as a pure state transformer:

* `handleItemClick` is the synchronous part of the async handler of the
  same name in App.tsx (guard check plus the three state writes made
  before the awaited fetch); the boolean it returns records whether a
  fetch was issued (the guard passed).
* `getFunFactSettle` is the continuation of that handler after the awaited
  `getFunFact` call settles: the try/catch/finally body, which writes
  `modalContent` (the fact on success, a fixed fallback on failure) and
  then unconditionally clears `isModalLoading`.
* `closeModal` is the `closeModal` function of App.tsx.
* `processFrame` is the body of the gesture `useEffect` of App.tsx: it
  hit-tests the cursor, writes `hoveredItemId` unconditionally, detects a
  rising pinch edge against `wasPinchingRef`, dispatches
  `handleItemClick` when the edge lands on a catalog card, and finally
  updates `wasPinchingRef`.  The DOM hit test
  (`document.elementFromPoint` / `closest` / `getAttribute`) is an
  external collaborator and is passed in as a function parameter.
-/

/-- Item record, from src/types.ts (`ClickableItem`). -/
structure ClickableItem where
  id : String
  title : String
  image : String
deriving DecidableEq, Repr

/-- Cursor coordinates of one hand sample, from src/types.ts (`HandData.cursor`). -/
structure Cursor where
  x : Int
  y : Int
deriving DecidableEq, Repr

/-- One gesture sample, from src/types.ts (`HandData`). -/
structure HandData where
  cursor : Cursor
  isPinching : Bool
deriving DecidableEq, Repr

/-- First entry of the static catalog in App.tsx. -/
def earthItem : ClickableItem :=
  { id := "earth", title := "Planet Earth", image := "https://picsum.photos/seed/earth/400/600" }

/-- Second entry of the static catalog in App.tsx. -/
def saturnItem : ClickableItem :=
  { id := "saturn", title := "Saturn", image := "https://picsum.photos/seed/saturn/400/600" }

/-- Third entry of the static catalog in App.tsx. -/
def galaxyItem : ClickableItem :=
  { id := "galaxy", title := "A Distant Galaxy", image := "https://picsum.photos/seed/galaxy/400/600" }

/-- The static catalog `INTERACTIVE_ITEMS` of App.tsx. -/
def INTERACTIVE_ITEMS : List ClickableItem := [earthItem, saturnItem, galaxyItem]

/-- The React state of the App component that the claims concern:
`hoveredItemId`, `wasPinchingRef.current`, `selectedItem`, `modalContent`
(the detail content) and `isModalLoading` (the detail-loading flag). -/
structure AppState where
  hoveredItemId : Option String
  wasPinching : Bool
  selectedItem : Option ClickableItem
  modalContent : String
  isModalLoading : Bool
deriving DecidableEq, Repr

/-- Initial state: `useState(null)`, `useRef(false)`, `useState(null)`,
`useState('')`, `useState(false)` in App.tsx. -/
def initialState : AppState :=
  { hoveredItemId := none
    wasPinching := false
    selectedItem := none
    modalContent := ""
    isModalLoading := false }

/-- The id of the currently selected item, modelling the optional-chaining
access `selectedItem?.id` in App.tsx. -/
def selectedItemId (s : AppState) : Option String :=
  s.selectedItem.map ClickableItem.id

/-- Synchronous part of `handleItemClick` in App.tsx: the guard
`if (selectedItem?.id === item.id || isModalLoading) return;` followed by
`setSelectedItem(item); setIsModalLoading(true); setModalContent('');`.
The returned boolean is true when the guard passed, i.e. when the
`getFunFact` fetch was issued. -/
def handleItemClick (s : AppState) (item : ClickableItem) : AppState × Bool :=
  if selectedItemId s = some item.id ∨ s.isModalLoading = true then
    (s, false)
  else
    ({ s with selectedItem := some item, isModalLoading := true, modalContent := "" }, true)

/-- The fixed fallback string written by the catch branch of
`handleItemClick` in App.tsx. -/
def fallbackMessage : String := "Could not retrieve information at this time."

/-- Continuation of `handleItemClick` in App.tsx after the awaited
`getFunFact(item.title)` call settles: on success `setModalContent(fact)`,
on failure `setModalContent(fallback)`, and in the finally block
`setIsModalLoading(false)`.  Note the source applies these writes to
whatever the state is at settlement time, with no check that the item is
still selected. -/
def getFunFactSettle (s : AppState) (result : Except String String) : AppState :=
  match result with
  | Except.ok fact => { s with modalContent := fact, isModalLoading := false }
  | Except.error _ => { s with modalContent := fallbackMessage, isModalLoading := false }

/-- `closeModal` in App.tsx: `setSelectedItem(null); setModalContent('');`. -/
def closeModal (s : AppState) : AppState :=
  { s with selectedItem := none, modalContent := "" }

/-- The click-dispatch part of the gesture effect in App.tsx:
`justPinched = isPinching && !wasPinchingRef.current`, and when
`justPinched && cardId` holds, look the card id up in the catalog with
`INTERACTIVE_ITEMS.find(item => item.id === cardId)`.  The result is the
item passed to `handleItemClick`, if any. -/
def clickedItem (wasPinching : Bool) (d : HandData) (cardId : Option String) :
    Option ClickableItem :=
  if d.isPinching && !wasPinching then
    match cardId with
    | some cid => INTERACTIVE_ITEMS.find? (fun it => it.id == cid)
    | none => none
  else none

/-- Apply the state change of a dispatched click, if one was dispatched. -/
def applyClick (s : AppState) : Option ClickableItem → AppState
  | some it => (handleItemClick s it).1
  | none => s

/-- One run of the gesture `useEffect` body in App.tsx for a sample `d`:
hit-test the cursor, `setHoveredItemId(cardId)` unconditionally, dispatch
`handleItemClick` on a rising pinch edge over a catalog card, and set
`wasPinchingRef.current = isPinching` at the end.  `hitTest` stands for
the DOM query chain, an external collaborator.  The second component is
the emitted select event (the item clicked), if any. -/
def processFrame (hitTest : Int → Int → Option String) (s : AppState) (d : HandData) :
    AppState × Option ClickableItem :=
  let cardId := hitTest d.cursor.x d.cursor.y
  let s1 := { s with hoveredItemId := cardId }
  let clicked := clickedItem s.wasPinching d cardId
  let s2 := applyClick s1 clicked
  ({ s2 with wasPinching := d.isPinching }, clicked)

/-- Process a whole sequence of gesture samples from a starting state,
collecting the select event (or absence of one) of every frame. -/
def processFrames (hitTest : Int → Int → Option String) (s : AppState) :
    List HandData → List (Option ClickableItem)
  | [] => []
  | d :: ds =>
    (processFrame hitTest s d).2 :: processFrames hitTest (processFrame hitTest s d).1 ds

/-- A sample with a fixed cursor position and a given pinch flag. -/
def pinchSample (b : Bool) : HandData :=
  { cursor := { x := 0, y := 0 }, isPinching := b }

/-- A hit test whose answer is always the earth card. -/
def overEarth : Int → Int → Option String := fun _ _ => some "earth"

/-- For a sequence of pinch flags with the cursor held over the earth
card, whether a select event fired on each frame, starting from the
initial state. -/
def selectFires (flags : List Bool) : List Bool :=
  (processFrames overEarth initialState (flags.map pinchSample)).map Option.isSome

/-- Reference edge detector: given the previous pinch flag, mark each
frame of a flag sequence on which a rising edge occurs. -/
def edgesFrom (prev : Bool) : List Bool → List Bool
  | [] => []
  | b :: bs => (b && !prev) :: edgesFrom b bs

-- ------------------------------------------------------------------
-- Helper lemmas
-- ------------------------------------------------------------------

theorem handleItemClick_hoveredItemId (s : AppState) (item : ClickableItem) :
    ((handleItemClick s item).1).hoveredItemId = s.hoveredItemId := by
  unfold handleItemClick
  split <;> rfl

theorem handleItemClick_wasPinching (s : AppState) (item : ClickableItem) :
    ((handleItemClick s item).1).wasPinching = s.wasPinching := by
  unfold handleItemClick
  split <;> rfl

theorem applyClick_hoveredItemId (s : AppState) (c : Option ClickableItem) :
    (applyClick s c).hoveredItemId = s.hoveredItemId := by
  cases c with
  | none => rfl
  | some it => exact handleItemClick_hoveredItemId s it

theorem processFrame_wasPinching (hitTest : Int → Int → Option String)
    (s : AppState) (d : HandData) :
    ((processFrame hitTest s d).1).wasPinching = d.isPinching := rfl

theorem handleItemClick_issued (s : AppState) (item : ClickableItem)
    (h : (handleItemClick s item).2 = true) :
    (handleItemClick s item).1 =
      { s with selectedItem := some item, isModalLoading := true, modalContent := "" } := by
  unfold handleItemClick at h ⊢
  split at h
  case isTrue hc => exact absurd h (by simp)
  case isFalse hc => rw [if_neg hc]

theorem clickedItem_overEarth (w b : Bool) :
    (clickedItem w (pinchSample b) (some "earth")).isSome = (b && !w) := by
  cases b <;> cases w <;> rfl

theorem processFrames_fires (flags : List Bool) :
    ∀ s : AppState,
      (processFrames overEarth s (flags.map pinchSample)).map Option.isSome =
        edgesFrom s.wasPinching flags := by
  induction flags with
  | nil => intro s; rfl
  | cons b bs ih =>
    intro s
    show ((processFrame overEarth s (pinchSample b)).2).isSome ::
        (processFrames overEarth (processFrame overEarth s (pinchSample b)).1
          (bs.map pinchSample)).map Option.isSome =
      (b && !s.wasPinching) :: edgesFrom b bs
    rw [ih, processFrame_wasPinching]
    exact congrArg (fun x => x :: edgesFrom b bs) (clickedItem_overEarth s.wasPinching b)

theorem edgesFrom_getD (flags : List Bool) :
    ∀ (prev : Bool) (i : Nat),
      (edgesFrom prev flags).getD i false =
        (flags.getD i false && !(if i = 0 then prev else flags.getD (i - 1) false)) := by
  induction flags with
  | nil => intro prev i; simp [edgesFrom]
  | cons b bs ih =>
    intro prev i
    cases i with
    | zero => simp [edgesFrom]
    | succ j =>
      cases j with
      | zero => simpa [edgesFrom] using ih b 0
      | succ k => simpa [edgesFrom] using ih b (k + 1)

-- ------------------------------------------------------------------
-- Claims
-- ------------------------------------------------------------------

/-- C1: with `previousPinching` initialised to false and the cursor held
over a catalog card, a select event is emitted on frame `i` of a pinch
sequence if and only if frame `i` carries a rising edge: `isPinching` is
true on that frame and either the frame is the first or the previous
frame pinch flag was false.  Hence the event fires exactly once per
maximal run of consecutive true flags, on the transition frame, never on
a falling edge or during a sustained pinch, and a sequence starting true
fires on its first frame. -/
theorem select_once_per_maximal_run (flags : List Bool) (i : Nat) :
    (selectFires flags).getD i false = true ↔
      (flags.getD i false = true ∧ (i = 0 ∨ flags.getD (i - 1) false = false)) := by
  unfold selectFires
  rw [processFrames_fires flags initialState]
  show (edgesFrom false flags).getD i false = true ↔ _
  rw [edgesFrom_getD flags false i]
  cases i with
  | zero => simp
  | succ j => simp

/-- C9: `closeModal` is idempotent, and it clears `selectedItem` and
`modalContent` unconditionally. -/
theorem closeModal_idempotent (s : AppState) :
    closeModal (closeModal s) = closeModal s ∧
      (closeModal s).selectedItem = none ∧ (closeModal s).modalContent = "" :=
  ⟨rfl, rfl, rfl⟩

/-- C6: on every processed frame, `hoveredItemId` after the frame equals
the hit-test result for the sample cursor coordinates, unconditionally:
the id when the hit test returns one, and empty when it returns empty. -/
theorem hover_equals_hitTest (hitTest : Int → Int → Option String)
    (s : AppState) (d : HandData) :
    ((processFrame hitTest s d).1).hoveredItemId = hitTest d.cursor.x d.cursor.y := by
  show (applyClick { s with hoveredItemId := hitTest d.cursor.x d.cursor.y }
      (clickedItem s.wasPinching d (hitTest d.cursor.x d.cursor.y))).hoveredItemId = _
  rw [applyClick_hoveredItemId]

/-- C5: calling the open handler when the item is already selected, or
while a fetch is in flight (`isModalLoading` true), is a no-op: the state
is returned unchanged and no fetch is issued. -/
theorem open_guard_noop (s : AppState) (item : ClickableItem)
    (h : selectedItemId s = some item.id ∨ s.isModalLoading = true) :
    handleItemClick s item = (s, false) := by
  unfold handleItemClick
  rw [if_pos h]

theorem open_guard_noop_witness :
    handleItemClick { initialState with isModalLoading := true } earthItem =
      ({ initialState with isModalLoading := true }, false) :=
  open_guard_noop { initialState with isModalLoading := true } earthItem (Or.inr rfl)

/-- C8: whenever the open handler passes its guard, it resets the detail
sub-state before the asynchronous fetch: `selectedItem` becomes the item,
`isModalLoading` becomes true and `modalContent` becomes the empty
string, and a fetch is issued. -/
theorem open_resets_detail (s : AppState) (item : ClickableItem)
    (h : ¬(selectedItemId s = some item.id ∨ s.isModalLoading = true)) :
    handleItemClick s item =
      ({ s with selectedItem := some item, isModalLoading := true, modalContent := "" },
        true) := by
  unfold handleItemClick
  rw [if_neg h]

theorem open_resets_detail_witness :
    handleItemClick initialState earthItem =
      ({ initialState with
          selectedItem := some earthItem
          isModalLoading := true
          modalContent := "" },
        true) :=
  open_resets_detail initialState earthItem (by decide)

/-- C7: if the hit test returns empty on the frame of a rising edge, or
returns an id that resolves to no catalog item, no select event is
emitted on that frame, whatever the pinch flags are. -/
theorem no_hit_no_select (hitTest : Int → Int → Option String)
    (s : AppState) (d : HandData)
    (h : ∀ cid, hitTest d.cursor.x d.cursor.y = some cid →
        INTERACTIVE_ITEMS.find? (fun it => it.id == cid) = none) :
    (processFrame hitTest s d).2 = none := by
  show clickedItem s.wasPinching d (hitTest d.cursor.x d.cursor.y) = none
  unfold clickedItem
  split
  · cases hc : hitTest d.cursor.x d.cursor.y with
    | none => simp [hc]
    | some cid => simp [hc, h cid hc]
  · rfl

theorem no_hit_no_select_witness :
    (processFrame (fun _ _ => some "mars") initialState (pinchSample true)).2 = none :=
  no_hit_no_select (fun _ _ => some "mars") initialState (pinchSample true)
    (fun cid hcid => by
      injection hcid with h
      subst h
      decide)

/-- C4: when the fetch issued for the currently selected item fails, the
failure is recovered locally: the settled state has the item still
selected, `modalContent` equal to the fixed fallback string and
`isModalLoading` false. -/
theorem fetch_failure_fallback (s : AppState) (item : ClickableItem) (e : String)
    (hfetch : (handleItemClick s item).2 = true) :
    (getFunFactSettle (handleItemClick s item).1 (Except.error e)).selectedItem = some item ∧
    (getFunFactSettle (handleItemClick s item).1 (Except.error e)).modalContent =
      fallbackMessage ∧
    (getFunFactSettle (handleItemClick s item).1 (Except.error e)).isModalLoading = false := by
  rw [handleItemClick_issued s item hfetch]
  exact ⟨rfl, rfl, rfl⟩

theorem fetch_failure_fallback_witness :
    (getFunFactSettle (handleItemClick initialState saturnItem).1
        (Except.error "boom")).selectedItem = some saturnItem ∧
    (getFunFactSettle (handleItemClick initialState saturnItem).1
        (Except.error "boom")).modalContent = fallbackMessage ∧
    (getFunFactSettle (handleItemClick initialState saturnItem).1
        (Except.error "boom")).isModalLoading = false :=
  fetch_failure_fallback initialState saturnItem "boom" (by decide)

/-- C10: `closeModal` leaves `isModalLoading` unchanged: in general the
flag survives a close, so after opening an item (fetch issued) and then
closing, `isModalLoading` is still true, and it only becomes false when
the fetch settles (with either outcome). -/
theorem close_keeps_loading (s : AppState) (item : ClickableItem)
    (r : Except String String)
    (hfetch : (handleItemClick s item).2 = true) :
    (∀ t : AppState, (closeModal t).isModalLoading = t.isModalLoading) ∧
    (closeModal (handleItemClick s item).1).isModalLoading = true ∧
    (closeModal (handleItemClick s item).1).selectedItem = none ∧
    (getFunFactSettle (closeModal (handleItemClick s item).1) r).isModalLoading = false := by
  refine ⟨fun t => rfl, ?_, rfl, ?_⟩
  · rw [handleItemClick_issued s item hfetch]
    rfl
  · cases r <;> rfl

theorem close_keeps_loading_witness :
    (∀ t : AppState, (closeModal t).isModalLoading = t.isModalLoading) ∧
    (closeModal (handleItemClick initialState earthItem).1).isModalLoading = true ∧
    (closeModal (handleItemClick initialState earthItem).1).selectedItem = none ∧
    (getFunFactSettle (closeModal (handleItemClick initialState earthItem).1)
        (Except.ok "fact")).isModalLoading = false :=
  close_keeps_loading initialState earthItem (Except.ok "fact") (by decide)

/-- C2 counterexample: open the earth item (fetch issued), close the
modal, then let the fetch resolve with "fact-A".  The claim says the
state does not change (in particular `modalContent` stays empty), but the
source applies `setModalContent(fact)` with no staleness check, so
`modalContent` becomes "fact-A". -/
theorem close_then_resolve_counterexample :
    ¬((getFunFactSettle (closeModal (handleItemClick initialState earthItem).1)
          (Except.ok "fact-A")).selectedItem = none ∧
      (getFunFactSettle (closeModal (handleItemClick initialState earthItem).1)
          (Except.ok "fact-A")).modalContent = "") := by
  decide

/-- C2 amended: if `closeModal` runs while a fetch is in flight and the
fetch later resolves successfully, then `selectedItem` stays empty, but
the stale result is not discarded: `modalContent` is set to the resolved
fact and `isModalLoading` becomes false. -/
theorem close_then_resolve_applies_stale (s : AppState) (item : ClickableItem)
    (fact : String)
    (_hfetch : (handleItemClick s item).2 = true) :
    (getFunFactSettle (closeModal (handleItemClick s item).1)
        (Except.ok fact)).selectedItem = none ∧
    (getFunFactSettle (closeModal (handleItemClick s item).1)
        (Except.ok fact)).modalContent = fact ∧
    (getFunFactSettle (closeModal (handleItemClick s item).1)
        (Except.ok fact)).isModalLoading = false :=
  ⟨rfl, rfl, rfl⟩

theorem close_then_resolve_applies_stale_witness :
    (getFunFactSettle (closeModal (handleItemClick initialState earthItem).1)
        (Except.ok "fact-A")).selectedItem = none ∧
    (getFunFactSettle (closeModal (handleItemClick initialState earthItem).1)
        (Except.ok "fact-A")).modalContent = "fact-A" ∧
    (getFunFactSettle (closeModal (handleItemClick initialState earthItem).1)
        (Except.ok "fact-A")).isModalLoading = false :=
  close_then_resolve_applies_stale initialState earthItem "fact-A" (by decide)

/-- C3 counterexample: open earth (item A), attempt to open saturn (item
B) while the fetch for A is in flight, then let the fetch for A resolve
with "fact-A".  The claim says `modalContent` is never "fact-A" and
`selectedItem` is B; in the source the open of B is rejected by the
in-flight guard (so A stays selected) and the resolution writes
`modalContent = "fact-A"` unconditionally. -/
theorem select_b_then_resolve_counterexample :
    ¬((getFunFactSettle
          (handleItemClick (handleItemClick initialState earthItem).1 saturnItem).1
          (Except.ok "fact-A")).modalContent ≠ "fact-A" ∧
      (getFunFactSettle
          (handleItemClick (handleItemClick initialState earthItem).1 saturnItem).1
          (Except.ok "fact-A")).selectedItem = some saturnItem) := by
  decide

/-- C3 amended: after item A is opened (fetch issued), opening any other
item while that fetch is in flight is a no-op, so A stays selected; the
fetch for A is therefore still current when it resolves, and its result
is applied: `modalContent` becomes the resolved fact and `selectedItem`
stays A. -/
theorem inflight_guard_blocks_second_open (s : AppState) (a b : ClickableItem)
    (fact : String)
    (ha : (handleItemClick s a).2 = true) :
    handleItemClick (handleItemClick s a).1 b = ((handleItemClick s a).1, false) ∧
    (getFunFactSettle (handleItemClick (handleItemClick s a).1 b).1
        (Except.ok fact)).selectedItem = some a ∧
    (getFunFactSettle (handleItemClick (handleItemClick s a).1 b).1
        (Except.ok fact)).modalContent = fact := by
  have h1 := handleItemClick_issued s a ha
  have hload : ((handleItemClick s a).1).isModalLoading = true := by rw [h1]
  have hb := open_guard_noop (handleItemClick s a).1 b (Or.inr hload)
  refine ⟨hb, ?_, rfl⟩
  rw [hb]
  show ((handleItemClick s a).1).selectedItem = some a
  rw [h1]

theorem inflight_guard_blocks_second_open_witness :
    handleItemClick (handleItemClick initialState earthItem).1 saturnItem =
      ((handleItemClick initialState earthItem).1, false) ∧
    (getFunFactSettle
        (handleItemClick (handleItemClick initialState earthItem).1 saturnItem).1
        (Except.ok "fact-A")).selectedItem = some earthItem ∧
    (getFunFactSettle
        (handleItemClick (handleItemClick initialState earthItem).1 saturnItem).1
        (Except.ok "fact-A")).modalContent = "fact-A" :=
  inflight_guard_blocks_second_open initialState earthItem saturnItem "fact-A" (by decide)
